import Mathlib

/-!
Shallow embedding of the two NEAR contracts of `contractsTenderbox`:

* `src/create_tender.rs` — the Tender Factory (`TenderFactory`): reserves a
  tender account id, issues the provisioning promise chain, and reconciles the
  outcome in the callback `on_tender_create`.
* `src/verify_tender.rs` — the Verify Tender contract
  (`VerifyTenderContract`): the trust registry with a foundation
  super-authority, a set of verified tenders and a set of verified factories.

Modelling conventions:

* `AccountId` is a `String`, `Balance` is a `Nat` (the source's `u128`; the
  contracts perform no arithmetic on balances — only comparisons and
  pass-through — so no wrap-around can occur and `Nat` is faithful).
* A NEAR host panic (a failed `assert!`) reverts the whole call: no state
  change and no outgoing action survive.  Fallible entry points therefore
  return `Option`/`Except`: `none`/`.error` is the panic, and the state and
  effects of a call exist only in the `some`/`.ok` payload.
* The ambient NEAR environment (`env::current_account_id`,
  `env::predecessor_account_id`, `env::attached_deposit`) is passed explicitly
  as an `Env` record.
* `UnorderedSet` / `LookupSet` hold account ids with pure membership
  semantics; both are embedded as `Finset AccountId`.  `insert` returning
  `true` iff the element was new, and `remove` returning `true` iff it was
  present, are embedded as `decide (· ∉ ·)` / `decide (· ∈ ·)` on the
  pre-state.
* Gas constants, logging, and the deployed wasm image are deployment
  configuration with no bearing on the contract state machine and are not
  modelled.
-/

abbrev AccountId := String

abbrev Balance := Nat

/-- The ambient NEAR call context, passed explicitly. -/
structure Env where
  current_account_id : AccountId
  predecessor_account_id : AccountId
  attached_deposit : Balance
deriving DecidableEq

/-- Platform primitive `env::is_valid_account_id`, consumed at the boundary
(the spec's "identity-syntax validator"): between 2 and 64 characters, each a
lowercase ASCII letter, an ASCII digit, or one of the separators `-`, `_`,
`.`; separators are never adjacent and never first or last. -/
def validAccountChars : List Char → Bool → Bool
  | [], lastSep => !lastSep
  | c :: cs, lastSep =>
    if ('a' ≤ c ∧ c ≤ 'z') ∨ ('0' ≤ c ∧ c ≤ '9') then
      validAccountChars cs false
    else if c = '-' ∨ c = '_' ∨ c = '.' then
      if lastSep then false else validAccountChars cs true
    else false

/-- Platform primitive: account-id well-formedness. -/
def is_valid_account_id (s : AccountId) : Bool :=
  decide (2 ≤ s.length) && decide (s.length ≤ 64) && validAccountChars s.data true

/-- `MIN_ATTACHED_BALANCE` from `create_tender.rs` line 17:
30 NEAR in yoctoNEAR. -/
def MIN_ATTACHED_BALANCE : Balance := 30000000000000000000000000

/-- Persistent state of the `TenderFactory` contract. -/
structure TenderFactory where
  tender_account_ids : Finset AccountId
  verify_tender_account_id : AccountId
deriving DecidableEq

/-- The data of the outgoing provisioning promise chain built by
`create_tender`: create the account, transfer the attached deposit to it,
deploy the tender code, call its `new` initializer with the owner id and
public key, then chain `on_tender_create` on the factory itself with the
captured arguments. -/
structure ChainCall where
  target : AccountId
  deposit : Balance
  owner_id : AccountId
  tender_public_key : String
  cb_tender_account_id : AccountId
  cb_attached_deposit : Balance
  cb_predecessor_account_id : AccountId
deriving DecidableEq

/-- The five panics of `create_tender`, in source order. -/
inductive CreateError where
  | insufficientDeposit
  | invalidFormat
  | invalidTenderAccount
  | invalidOwner
  | alreadyExists
deriving DecidableEq

instance decEqExcept {ε α : Type} [DecidableEq ε] [DecidableEq α] :
    DecidableEq (Except ε α) := fun a b =>
  match a, b with
  | .error e, .error f => decidable_of_iff (e = f) (by simp)
  | .error _, .ok _ => Decidable.isFalse (by simp)
  | .ok _, .error _ => Decidable.isFalse (by simp)
  | .ok a2, .ok b2 => decidable_of_iff (a2 = b2) (by simp)

/-- The composed full tender account id:
`format!("{}.{}", tender_registration_id, env::current_account_id())`. -/
def tender_account_of (env : Env) (tender_registration_id : String) : AccountId :=
  tender_registration_id ++ "." ++ env.current_account_id

/-- `TenderFactory::create_tender` (`create_tender.rs` lines 128–192).
The five `assert!`s in source order; on success the composed id is inserted
into `tender_account_ids` and the provisioning chain is issued.

The first assert is written in the source as
`env::attached_deposit() = MIN_ATTACHED_BALANCE` — an assignment, which does
not type-check in Rust; the nearest boolean reading (kept here) is the
equality test `==`.  The intended check per the contract's own tests and doc
text is `>=`; see `deposit_check_spec`. -/
def create_tender (env : Env) (st : TenderFactory)
    (tender_registration_id : String) (owner_id : AccountId)
    (tender_public_key : String) :
    Except CreateError (TenderFactory × ChainCall) :=
  if ¬ (env.attached_deposit = MIN_ATTACHED_BALANCE) then
    .error .insufficientDeposit
  else if '.' ∈ tender_registration_id.data then
    .error .invalidFormat
  else if ¬ (is_valid_account_id (tender_account_of env tender_registration_id) = true) then
    .error .invalidTenderAccount
  else if ¬ (is_valid_account_id owner_id = true) then
    .error .invalidOwner
  else if tender_account_of env tender_registration_id ∈ st.tender_account_ids then
    .error .alreadyExists
  else
    .ok ({ st with
           tender_account_ids :=
             insert (tender_account_of env tender_registration_id) st.tender_account_ids },
         { target := tender_account_of env tender_registration_id
           deposit := env.attached_deposit
           owner_id := owner_id
           tender_public_key := tender_public_key
           cb_tender_account_id := tender_account_of env tender_registration_id
           cb_attached_deposit := env.attached_deposit
           cb_predecessor_account_id := env.predecessor_account_id })

/-- Modelled from the spec: the deposit check as the spec defines the evident
intent ("Deposit ≥ a fixed minimum threshold"); the source's comparison is a
typo (see `create_tender`). -/
def deposit_check_spec (attached_deposit : Balance) : Bool :=
  decide (MIN_ATTACHED_BALANCE ≤ attached_deposit)

/-- Modelled from the spec: `assert_self` lives in the factory's `utils`
module, which is absent from `src/`; the spec requires the continuation to be
guarded by a "caller must equal self" check. -/
def assert_self (env : Env) : Bool :=
  env.predecessor_account_id == env.current_account_id

/-- A fund-transfer action `Promise::new(receiver).transfer(amount)`. -/
structure TransferAction where
  receiver : AccountId
  amount : Balance
deriving DecidableEq

/-- The cross-contract call `add_tender(tender_account_id)` sent to the
verify-tender contract (the source's `ext_whitelist::add_tender(..)`; the
declared external trait is `ExVerifyTender`). -/
structure VerifyCall where
  receiver : AccountId
  tender_account_id : AccountId
deriving DecidableEq

/-- The callback's `PromiseOrValue<bool>` result. -/
inductive PromiseOrValue where
  | promise (call : VerifyCall)
  | value (b : Bool)
deriving DecidableEq

/-- `TenderFactory::on_tender_create` (`create_tender.rs` lines 198–238).
`promise_success` is `is_promise_success()` from the absent `utils` module —
modelled from the spec as the settled outcome of the provisioning chain,
passed in by the platform.  The result on a non-panicking run is the new
state, an optional outgoing transfer, and the `PromiseOrValue<bool>`. -/
def on_tender_create (env : Env) (st : TenderFactory) (promise_success : Bool)
    (tender_account_id : AccountId) (attached_deposit : Balance)
    (predecessor_account_id : AccountId) :
    Option (TenderFactory × Option TransferAction × PromiseOrValue) :=
  if assert_self env = false then
    none
  else if promise_success then
    some (st, none,
      PromiseOrValue.promise
        { receiver := st.verify_tender_account_id
          tender_account_id := tender_account_id })
  else
    some ({ st with tender_account_ids := st.tender_account_ids.erase tender_account_id },
      some { receiver := predecessor_account_id, amount := attached_deposit },
      PromiseOrValue.value false)

/-- Persistent state of the `VerifyTenderContract`. -/
structure VerifyTenderContract where
  foundation_account_id : AccountId
  verified : Finset AccountId
  factory_verified : Finset AccountId
deriving DecidableEq

/-- `VerifyTenderContract::assert_called_by_foundation`
(`verify_tender.rs` lines 136–142). -/
def assert_called_by_foundation (env : Env) (c : VerifyTenderContract) : Bool :=
  env.predecessor_account_id == c.foundation_account_id

/-- `VerifyTenderContract::is_verified` (`verify_tender.rs` lines 51–57; the
source names the parameter `staking_pool_account_id` but the body reads
`tender_account_id` — embedded under the evidently intended single name). -/
def is_verified (c : VerifyTenderContract) (tender_account_id : AccountId) :
    Option Bool :=
  if is_valid_account_id tender_account_id = false then none
  else some (decide (tender_account_id ∈ c.verified))

/-- `VerifyTenderContract::is_factory_verified` (`verify_tender.rs`
lines 60–66). -/
def is_factory_verified (c : VerifyTenderContract) (factory_account_id : AccountId) :
    Option Bool :=
  if is_valid_account_id factory_account_id = false then none
  else some (decide (factory_account_id ∈ c.factory_verified))

/-- `VerifyTenderContract::add_tender` (`verify_tender.rs` lines 75–89):
validate the id; if the caller is not a verified factory, require the
foundation; insert and return whether the id was newly inserted. -/
def add_tender (env : Env) (c : VerifyTenderContract)
    (tender_account_id : AccountId) :
    Option (VerifyTenderContract × Bool) :=
  if is_valid_account_id tender_account_id = false then none
  else if env.predecessor_account_id ∉ c.factory_verified ∧
      assert_called_by_foundation env c = false then none
  else
    some ({ c with verified := insert tender_account_id c.verified },
      decide (tender_account_id ∉ c.verified))

/-- `VerifyTenderContract::remove_tender` (`verify_tender.rs` lines 98–105):
foundation-only; validate; remove and return whether the id was present.
(The source names the parameter `staking_pool_account_id` but the body reads
`tender_account_id` — embedded under the evidently intended single name.) -/
def remove_tender (env : Env) (c : VerifyTenderContract)
    (tender_account_id : AccountId) :
    Option (VerifyTenderContract × Bool) :=
  if assert_called_by_foundation env c = false then none
  else if is_valid_account_id tender_account_id = false then none
  else
    some ({ c with verified := c.verified.erase tender_account_id },
      decide (tender_account_id ∈ c.verified))

/-- `VerifyTenderContract::add_factory` (`verify_tender.rs` lines 110–117):
validate; foundation-only; insert into the verified-factories set and return
whether the id was newly inserted.  (The source writes
`self.factory_whitelist.insert(..)`, a field the struct does not declare; the
struct's only factory set is `factory_verified`, which the method's own doc
comment and the contract's tests address — embedded accordingly.) -/
def add_factory (env : Env) (c : VerifyTenderContract)
    (factory_account_id : AccountId) :
    Option (VerifyTenderContract × Bool) :=
  if is_valid_account_id factory_account_id = false then none
  else if assert_called_by_foundation env c = false then none
  else
    some ({ c with factory_verified := insert factory_account_id c.factory_verified },
      decide (factory_account_id ∉ c.factory_verified))

/-- `VerifyTenderContract::remove_factory` (`verify_tender.rs`
lines 122–129): foundation-only; validate; remove from the
verified-factories set and return whether the id was present. -/
def remove_factory (env : Env) (c : VerifyTenderContract)
    (factory_account_id : AccountId) :
    Option (VerifyTenderContract × Bool) :=
  if assert_called_by_foundation env c = false then none
  else if is_valid_account_id factory_account_id = false then none
  else
    some ({ c with factory_verified := c.factory_verified.erase factory_account_id },
      decide (factory_account_id ∈ c.factory_verified))

/-- Claim C1: when the factory calls `on_tender_create` on itself and the
provisioning chain failed, the handler removes the tender id from
`tender_account_ids` (restoring the set that existed before the reserving
insert, hence the same size), issues a transfer of exactly the captured
deposit back to the requester, and returns the concrete value `false`. -/
theorem on_tender_create_failure_compensates (env : Env) (s : Finset AccountId)
    (v id req : AccountId) (dep : Balance)
    (hself : env.predecessor_account_id = env.current_account_id)
    (hfresh : id ∉ s) :
    on_tender_create env ⟨insert id s, v⟩ false id dep req =
      some (⟨s, v⟩, some ⟨req, dep⟩, PromiseOrValue.value false) ∧
    (insert id s).card = s.card + 1 := by
  constructor
  · simp [on_tender_create, assert_self, hself, Finset.erase_insert hfresh]
  · exact Finset.card_insert_of_not_mem hfresh

theorem on_tender_create_failure_compensates_witness :
    on_tender_create ⟨"factory", "factory", 0⟩
        ⟨insert "shop1.factory" ∅, "verify"⟩ false
        "shop1.factory" 31000000000000000000000000 "alice" =
      some (⟨∅, "verify"⟩, some ⟨"alice", 31000000000000000000000000⟩,
        PromiseOrValue.value false) ∧
    (insert "shop1.factory" (∅ : Finset AccountId)).card = (∅ : Finset AccountId).card + 1 :=
  on_tender_create_failure_compensates ⟨"factory", "factory", 0⟩ ∅ "verify"
    "shop1.factory" "alice" 31000000000000000000000000 rfl (by decide)

/-- Claim C2: the source's deposit assert is written with `=` (an assignment;
its nearest boolean reading is an equality test), so a deposit of 31 NEAR —
which satisfies the spec's minimum-threshold check and is the deposit the
contract's own success test attaches — is rejected with the
insufficient-deposit panic, while exactly 30 NEAR is not. -/
theorem create_tender_deposit_bug :
    deposit_check_spec 31000000000000000000000000 = true ∧
    create_tender ⟨"factory", "alice", 31000000000000000000000000⟩
        ⟨∅, "verify"⟩ "shop1" "owner1" "pk" =
      Except.error CreateError.insufficientDeposit ∧
    create_tender ⟨"factory", "alice", 30000000000000000000000000⟩
        ⟨∅, "verify"⟩ "shop1" "owner1" "pk" ≠
      Except.error CreateError.insufficientDeposit := by
  refine ⟨by decide, by decide, by decide⟩

/-- Claim C3: any caller other than the factory account itself makes
`on_tender_create` panic (no post-state, no transfer, no result), and when
the caller is the factory itself the guard's failure branch is unreachable
(the call never panics on the guard). -/
theorem on_tender_create_requires_self (env : Env) (st : TenderFactory)
    (b : Bool) (id : AccountId) (dep : Balance) (req : AccountId) :
    (env.predecessor_account_id ≠ env.current_account_id →
      on_tender_create env st b id dep req = none) ∧
    (env.predecessor_account_id = env.current_account_id →
      on_tender_create env st b id dep req ≠ none) := by
  constructor
  · intro h
    simp [on_tender_create, assert_self, h]
  · intro h
    cases b <;> simp [on_tender_create, assert_self, h]

theorem on_tender_create_requires_self_witness :
    on_tender_create ⟨"factory", "alice", 0⟩ ⟨∅, "verify"⟩ true "t.f" 0 "r" = none ∧
    on_tender_create ⟨"factory", "factory", 0⟩ ⟨∅, "verify"⟩ true "t.f" 0 "r" ≠ none :=
  ⟨(on_tender_create_requires_self ⟨"factory", "alice", 0⟩ ⟨∅, "verify"⟩
      true "t.f" 0 "r").1 (by decide),
   (on_tender_create_requires_self ⟨"factory", "factory", 0⟩ ⟨∅, "verify"⟩
      true "t.f" 0 "r").2 rfl⟩

/-- Claim C4: when the factory calls `on_tender_create` on itself and the
provisioning chain succeeded, the handler leaves the factory state untouched,
issues the `add_tender` registration call for the tender id to the configured
verify-tender contract, and returns that call as its pending outcome (not a
synthetic boolean). -/
theorem on_tender_create_success_registers (env : Env) (st : TenderFactory)
    (id : AccountId) (dep : Balance) (req : AccountId)
    (hself : env.predecessor_account_id = env.current_account_id) :
    on_tender_create env st true id dep req =
      some (st, none,
        PromiseOrValue.promise ⟨st.verify_tender_account_id, id⟩) := by
  simp [on_tender_create, assert_self, hself]

theorem on_tender_create_success_registers_witness :
    on_tender_create ⟨"factory", "factory", 0⟩ ⟨insert "shop1.factory" ∅, "verify"⟩
        true "shop1.factory" 31000000000000000000000000 "alice" =
      some (⟨insert "shop1.factory" ∅, "verify"⟩, none,
        PromiseOrValue.promise ⟨"verify", "shop1.factory"⟩) :=
  on_tender_create_success_registers ⟨"factory", "factory", 0⟩
    ⟨insert "shop1.factory" ∅, "verify"⟩ "shop1.factory"
    31000000000000000000000000 "alice" rfl

/-- Claim C10: in the failure branch of `on_tender_create` the boolean result
of the set removal is discarded, so even when the tender id was never in
`tender_account_ids` the handler still transfers the full captured deposit to
the predecessor and returns `false` without panicking. -/
theorem on_tender_create_unreserved_refund (env : Env) (s : Finset AccountId)
    (v id req : AccountId) (dep : Balance)
    (hself : env.predecessor_account_id = env.current_account_id)
    (habs : id ∉ s) :
    on_tender_create env ⟨s, v⟩ false id dep req =
      some (⟨s, v⟩, some ⟨req, dep⟩, PromiseOrValue.value false) := by
  simp [on_tender_create, assert_self, hself, Finset.erase_eq_of_not_mem habs]

theorem on_tender_create_unreserved_refund_witness :
    on_tender_create ⟨"factory", "factory", 0⟩ ⟨∅, "verify"⟩ false
        "ghost.factory" 31000000000000000000000000 "alice" =
      some (⟨∅, "verify"⟩, some ⟨"alice", 31000000000000000000000000⟩,
        PromiseOrValue.value false) :=
  on_tender_create_unreserved_refund ⟨"factory", "factory", 0⟩ ∅ "verify"
    "ghost.factory" "alice" 31000000000000000000000000 rfl (by decide)

/-- Claim C5: for a well-formed id, `add_tender` called by the foundation
succeeds (inserting the id and returning the newly-inserted flag) whether or
not the caller is a verified factory; called by a verified factory it
succeeds the same way; called by a caller that is neither, it panics with no
mutation. -/
theorem add_tender_authorization (env : Env) (c : VerifyTenderContract)
    (id : AccountId) (hid : is_valid_account_id id = true) :
    (env.predecessor_account_id = c.foundation_account_id →
      add_tender env c id =
        some ({ c with verified := insert id c.verified },
          decide (id ∉ c.verified))) ∧
    (env.predecessor_account_id ∈ c.factory_verified →
      add_tender env c id =
        some ({ c with verified := insert id c.verified },
          decide (id ∉ c.verified))) ∧
    (env.predecessor_account_id ∉ c.factory_verified →
      env.predecessor_account_id ≠ c.foundation_account_id →
      add_tender env c id = none) := by
  refine ⟨?_, ?_, ?_⟩
  · intro hauth
    simp [add_tender, assert_called_by_foundation, hid, hauth]
  · intro hfac
    simp [add_tender, assert_called_by_foundation, hid, hfac]
  · intro hfac hne
    simp [add_tender, assert_called_by_foundation, hid, hfac, hne]

theorem add_tender_authorization_witness :
    add_tender ⟨"verify", "tbox", 0⟩ ⟨"tbox", ∅, ∅⟩ "tender1" =
      some (⟨"tbox", insert "tender1" ∅, ∅⟩, decide ("tender1" ∉ (∅ : Finset AccountId))) ∧
    add_tender ⟨"verify", "fac1", 0⟩ ⟨"tbox", ∅, insert "fac1" ∅⟩ "tender1" =
      some (⟨"tbox", insert "tender1" ∅, insert "fac1" ∅⟩,
        decide ("tender1" ∉ (∅ : Finset AccountId))) ∧
    add_tender ⟨"verify", "mallory", 0⟩ ⟨"tbox", ∅, ∅⟩ "tender1" = none :=
  ⟨(add_tender_authorization ⟨"verify", "tbox", 0⟩ ⟨"tbox", ∅, ∅⟩ "tender1"
      (by decide)).1 rfl,
   (add_tender_authorization ⟨"verify", "fac1", 0⟩ ⟨"tbox", ∅, insert "fac1" ∅⟩ "tender1"
      (by decide)).2.1 (by decide),
   (add_tender_authorization ⟨"verify", "mallory", 0⟩ ⟨"tbox", ∅, ∅⟩ "tender1"
      (by decide)).2.2 (by decide) (by decide)⟩

/-- Claim C7: called by the foundation with a well-formed id, `add_factory`
inserts the id into the verified-factories set and returns whether it was
new, `remove_factory` erases it and returns whether it was present, and
`is_factory_verified` reflects the updated membership afterwards; any other
caller makes both panic with no mutation. -/
theorem factory_list_management (env : Env) (c : VerifyTenderContract)
    (id : AccountId) (hid : is_valid_account_id id = true) :
    (env.predecessor_account_id = c.foundation_account_id →
      add_factory env c id =
        some ({ c with factory_verified := insert id c.factory_verified },
          decide (id ∉ c.factory_verified)) ∧
      remove_factory env c id =
        some ({ c with factory_verified := c.factory_verified.erase id },
          decide (id ∈ c.factory_verified)) ∧
      (∀ c2 b2, add_factory env c id = some (c2, b2) →
        is_factory_verified c2 id = some true) ∧
      (∀ c2 b2, remove_factory env c id = some (c2, b2) →
        is_factory_verified c2 id = some false)) ∧
    (env.predecessor_account_id ≠ c.foundation_account_id →
      add_factory env c id = none ∧ remove_factory env c id = none) := by
  constructor
  · intro hauth
    refine ⟨?_, ?_, ?_, ?_⟩
    · simp [add_factory, assert_called_by_foundation, hid, hauth]
    · simp [remove_factory, assert_called_by_foundation, hid, hauth]
    · intro c2 b2 h
      simp [add_factory, assert_called_by_foundation, hid, hauth] at h
      simp [is_factory_verified, hid, ← h.1]
    · intro c2 b2 h
      simp [remove_factory, assert_called_by_foundation, hid, hauth] at h
      simp [is_factory_verified, hid, ← h.1]
  · intro hne
    constructor
    · simp [add_factory, assert_called_by_foundation, hid, hne]
    · simp [remove_factory, assert_called_by_foundation, hne]

theorem factory_list_management_witness :
    (add_factory ⟨"verify", "tbox", 0⟩ ⟨"tbox", ∅, ∅⟩ "fac1" =
      some (⟨"tbox", ∅, insert "fac1" ∅⟩, decide ("fac1" ∉ (∅ : Finset AccountId)))) ∧
    (add_factory ⟨"verify", "intruder", 0⟩ ⟨"tbox", ∅, ∅⟩ "fac1" = none) :=
  ⟨((factory_list_management ⟨"verify", "tbox", 0⟩ ⟨"tbox", ∅, ∅⟩ "fac1"
      (by decide)).1 rfl).1,
   ((factory_list_management ⟨"verify", "intruder", 0⟩ ⟨"tbox", ∅, ∅⟩ "fac1"
      (by decide)).2 (by decide)).1⟩

/-- Claim C8: registry membership is a pure boolean predicate — an authorized
double `add_tender` of a fresh id returns `true` then `false` and leaves
`verified` with the same members as a single call, and `remove_tender` of an
absent id returns `false` and leaves the set unchanged. -/
theorem registry_membership_idempotent (env : Env) (c : VerifyTenderContract)
    (id : AccountId) (hid : is_valid_account_id id = true)
    (hauth : env.predecessor_account_id = c.foundation_account_id)
    (habs : id ∉ c.verified) :
    (∃ c1 c2, add_tender env c id = some (c1, true) ∧
      add_tender env c1 id = some (c2, false) ∧
      c1.verified = insert id c.verified ∧ c2.verified = c1.verified) ∧
    (∃ c3, remove_tender env c id = some (c3, false) ∧ c3.verified = c.verified) := by
  constructor
  · refine ⟨{ c with verified := insert id c.verified },
      { c with verified := insert id (insert id c.verified) }, ?_, ?_, rfl, ?_⟩
    · simp [add_tender, assert_called_by_foundation, hid, hauth, habs]
    · simp [add_tender, assert_called_by_foundation, hid, hauth]
    · simp
  · refine ⟨{ c with verified := c.verified.erase id }, ?_, ?_⟩
    · simp [remove_tender, assert_called_by_foundation, hid, hauth, habs]
    · exact Finset.erase_eq_of_not_mem habs

theorem registry_membership_idempotent_witness :
    (∃ c1 c2, add_tender ⟨"verify", "tbox", 0⟩ ⟨"tbox", ∅, ∅⟩ "tender1" = some (c1, true) ∧
      add_tender ⟨"verify", "tbox", 0⟩ c1 "tender1" = some (c2, false) ∧
      c1.verified = insert "tender1" ∅ ∧ c2.verified = c1.verified) ∧
    (∃ c3, remove_tender ⟨"verify", "tbox", 0⟩ ⟨"tbox", ∅, ∅⟩ "tender1" =
        some (c3, false) ∧ c3.verified = (∅ : Finset AccountId)) :=
  registry_membership_idempotent ⟨"verify", "tbox", 0⟩ ⟨"tbox", ∅, ∅⟩ "tender1"
    (by decide) rfl (by decide)

/-- Claim C6: `create_tender` runs its five checks in source order — each
panic happens exactly when its own condition fails and every earlier check
passed — a panic produces no post-state (hence no mutation), and only the
successful run inserts the composed id, which was necessarily absent
before. -/
theorem create_tender_validation_order (env : Env) (st : TenderFactory)
    (rid owner pk : String) :
    (create_tender env st rid owner pk = Except.error CreateError.insufficientDeposit ↔
      ¬ env.attached_deposit = MIN_ATTACHED_BALANCE) ∧
    (create_tender env st rid owner pk = Except.error CreateError.invalidFormat ↔
      env.attached_deposit = MIN_ATTACHED_BALANCE ∧ '.' ∈ rid.data) ∧
    (create_tender env st rid owner pk = Except.error CreateError.invalidTenderAccount ↔
      env.attached_deposit = MIN_ATTACHED_BALANCE ∧ '.' ∉ rid.data ∧
      is_valid_account_id (tender_account_of env rid) = false) ∧
    (create_tender env st rid owner pk = Except.error CreateError.invalidOwner ↔
      env.attached_deposit = MIN_ATTACHED_BALANCE ∧ '.' ∉ rid.data ∧
      is_valid_account_id (tender_account_of env rid) = true ∧
      is_valid_account_id owner = false) ∧
    (create_tender env st rid owner pk = Except.error CreateError.alreadyExists ↔
      env.attached_deposit = MIN_ATTACHED_BALANCE ∧ '.' ∉ rid.data ∧
      is_valid_account_id (tender_account_of env rid) = true ∧
      is_valid_account_id owner = true ∧
      tender_account_of env rid ∈ st.tender_account_ids) ∧
    (∀ st2 ch, create_tender env st rid owner pk = Except.ok (st2, ch) →
      st2.tender_account_ids = insert (tender_account_of env rid) st.tender_account_ids ∧
      tender_account_of env rid ∉ st.tender_account_ids ∧
      st2.verify_tender_account_id = st.verify_tender_account_id) := by
  unfold create_tender
  split_ifs with h1 h2 h3 h4 h5 <;> simp_all

theorem create_tender_validation_order_witness :
    create_tender ⟨"factory", "alice", 0⟩ ⟨∅, "verify"⟩ "shop1" "owner1" "pk" =
      Except.error CreateError.insufficientDeposit ∧
    ((⟨{"shop1.factory"}, "verify"⟩ : TenderFactory).tender_account_ids =
      insert (tender_account_of ⟨"factory", "alice", 30000000000000000000000000⟩ "shop1")
        (⟨∅, "verify"⟩ : TenderFactory).tender_account_ids ∧
     tender_account_of ⟨"factory", "alice", 30000000000000000000000000⟩ "shop1" ∉
       (⟨∅, "verify"⟩ : TenderFactory).tender_account_ids ∧
     (⟨{"shop1.factory"}, "verify"⟩ : TenderFactory).verify_tender_account_id =
       (⟨∅, "verify"⟩ : TenderFactory).verify_tender_account_id) :=
  ⟨(create_tender_validation_order ⟨"factory", "alice", 0⟩ ⟨∅, "verify"⟩
      "shop1" "owner1" "pk").1.mpr (by decide),
   (create_tender_validation_order ⟨"factory", "alice", 30000000000000000000000000⟩
      ⟨∅, "verify"⟩ "shop1" "owner1" "pk").2.2.2.2.2
     ⟨{"shop1.factory"}, "verify"⟩
     ⟨"shop1.factory", 30000000000000000000000000, "owner1", "pk",
      "shop1.factory", 30000000000000000000000000, "alice"⟩ (by decide)⟩

/-- Claim C9: once the deposit check passes, a short id containing the
separator `.` makes `create_tender` panic with the invalid-format error
(hence no post-state), and for a short id without it the composed full
identifier — the chain's target, the callback's captured id, and the id
inserted into `tender_account_ids` — is exactly the short id, then `.`, then
the factory's own account id. -/
theorem create_tender_separator_and_composition (env : Env) (st : TenderFactory)
    (rid owner pk : String)
    (hdep : env.attached_deposit = MIN_ATTACHED_BALANCE) :
    ('.' ∈ rid.data →
      create_tender env st rid owner pk = Except.error CreateError.invalidFormat) ∧
    ('.' ∉ rid.data →
      ∀ st2 ch, create_tender env st rid owner pk = Except.ok (st2, ch) →
        ch.target = rid ++ "." ++ env.current_account_id ∧
        ch.cb_tender_account_id = rid ++ "." ++ env.current_account_id ∧
        st2.tender_account_ids =
          insert (rid ++ "." ++ env.current_account_id) st.tender_account_ids) := by
  constructor
  · intro h
    simp [create_tender, hdep, h]
  · intro h st2 ch hok
    unfold create_tender at hok
    rw [if_neg (not_not.mpr hdep), if_neg h] at hok
    by_cases h3 : is_valid_account_id (tender_account_of env rid) = true
    case neg =>
      rw [if_pos h3] at hok
      exact absurd hok (by simp)
    rw [if_neg (not_not.mpr h3)] at hok
    by_cases h4 : is_valid_account_id owner = true
    case neg =>
      rw [if_pos h4] at hok
      exact absurd hok (by simp)
    rw [if_neg (not_not.mpr h4)] at hok
    by_cases h5 : tender_account_of env rid ∈ st.tender_account_ids
    case pos =>
      rw [if_pos h5] at hok
      exact absurd hok (by simp)
    rw [if_neg h5] at hok
    injection hok with hpair
    injection hpair with hst hch
    subst hst
    subst hch
    exact ⟨rfl, rfl, rfl⟩

theorem create_tender_separator_and_composition_witness :
    create_tender ⟨"factory", "alice", 30000000000000000000000000⟩ ⟨∅, "verify"⟩
        "bad.id" "owner1" "pk" = Except.error CreateError.invalidFormat ∧
    ((⟨"shop1.factory", 30000000000000000000000000, "owner1", "pk",
       "shop1.factory", 30000000000000000000000000, "alice"⟩ : ChainCall).target =
      "shop1" ++ "." ++ "factory" ∧
     (⟨"shop1.factory", 30000000000000000000000000, "owner1", "pk",
       "shop1.factory", 30000000000000000000000000, "alice"⟩ : ChainCall).cb_tender_account_id =
      "shop1" ++ "." ++ "factory" ∧
     (⟨{"shop1.factory"}, "verify"⟩ : TenderFactory).tender_account_ids =
      insert ("shop1" ++ "." ++ "factory")
        (⟨∅, "verify"⟩ : TenderFactory).tender_account_ids) :=
  ⟨(create_tender_separator_and_composition
      ⟨"factory", "alice", 30000000000000000000000000⟩ ⟨∅, "verify"⟩
      "bad.id" "owner1" "pk" rfl).1 (by decide),
   (create_tender_separator_and_composition
      ⟨"factory", "alice", 30000000000000000000000000⟩ ⟨∅, "verify"⟩
      "shop1" "owner1" "pk" rfl).2 (by decide)
     ⟨{"shop1.factory"}, "verify"⟩
     ⟨"shop1.factory", 30000000000000000000000000, "owner1", "pk",
      "shop1.factory", 30000000000000000000000000, "alice"⟩ (by decide)⟩
